import Mathlib

/-!
Verification of the secure-token generation and validation engine of this
repository: the two scripts `generate_secure_token.py` (namespace `GenTok`)
and `verify_token_security.py` (namespace `VerifyTok`) are shallowly
embedded over `List Char`, and the claims of the specification are settled
against these embeddings.

Conventions of the embedding:
* Python strings become `List Char`; the slice `s[i:i+L]` becomes
  `pySlice s i L`.
* `float` arithmetic (`math.log2`, entropy thresholds) is modelled over `ℝ`
  with `Real.logb 2`.
* Nested `for` loops with an early `return` of the found value become
  `List.findSome?` over the corresponding `List.range` / `List.range'`,
  which returns the first hit in the same iteration order.
* The recursive retry loop of `generate_secure_token` consumes an explicit
  list of candidate tokens standing for the successive outputs of the
  secure-random draws; `none` means the whole supplied prefix of the random
  stream was rejected and the source code is still retrying (the source has
  no error path and no retry bound).
-/

set_option maxHeartbeats 1000000
set_option maxRecDepth 8192

/-- Python slice `s[i:i+L]` on a list of characters. -/
def pySlice (s : List Char) (i L : Nat) : List Char :=
  (s.drop i).take L

namespace GenTok

/-- `check_character_diversity` from `generate_secure_token.py`: at least 3 of
the 4 character classes (uppercase, lowercase, digit, other) occur. -/
def check_character_diversity (token : List Char) : Bool :=
  let has_uppercase := token.any fun c => 'A' ≤ c && c ≤ 'Z'
  let has_lowercase := token.any fun c => 'a' ≤ c && c ≤ 'z'
  let has_digits := token.any fun c => '0' ≤ c && c ≤ '9'
  let has_special := token.any fun c =>
    !(('A' ≤ c && c ≤ 'Z') || ('a' ≤ c && c ≤ 'z') || ('0' ≤ c && c ≤ '9'))
  let char_types := [has_uppercase, has_lowercase, has_digits, has_special].countP id
  decide (3 ≤ char_types)

/-- The repeating-pattern loop of `check_common_patterns` in
`generate_secure_token.py`: `for length in range(1, min(8, len(token) // 2)):
for i in range(len(token) - 2 * length + 1): ...`, returning the first
window that is immediately repeated. -/
def rep_find (token : List Char) : Option (List Char) :=
  (List.range' 1 (min 8 (token.length / 2) - 1)).findSome? fun L =>
    (List.range (token.length - 2 * L + 1)).findSome? fun i =>
      if pySlice token i L = pySlice token (i + L) L then some (pySlice token i L)
      else none

/-- The three ordered alphabets scanned by the sequential-pattern loop. -/
def sequences : List (List Char) :=
  ["abcdefghijklmnopqrstuvwxyz".data, "ABCDEFGHIJKLMNOPQRSTUVWXYZ".data,
    "0123456789".data]

/-- The sequential-pattern loop of `check_common_patterns` in
`generate_secure_token.py`: `for seq in sequences: for i in range(len(seq) - 3):
if seq[i:i+4] in token: ...`. -/
def seq_find (token : List Char) : Option (List Char) :=
  sequences.findSome? fun seq =>
    (List.range (seq.length - 3)).findSome? fun i =>
      if pySlice seq i 4 <:+: token then some (pySlice seq i 4)
      else none

/-- `check_common_patterns` from `generate_secure_token.py`: `False` as soon
as a repeating window or a sequential run is found, `True` otherwise. -/
def check_common_patterns (token : List Char) : Bool :=
  match rep_find token with
  | some _ => false
  | none =>
    match seq_find token with
    | some _ => false
    | none => true

/-- `string.ascii_uppercase`. -/
def uppercase : List Char := "ABCDEFGHIJKLMNOPQRSTUVWXYZ".data

/-- `string.ascii_lowercase`. -/
def lowercase : List Char := "abcdefghijklmnopqrstuvwxyz".data

/-- `string.digits`. -/
def digits : List Char := "0123456789".data

/-- The fixed punctuation set of `generate_secure_token.py`. -/
def special : List Char := "!@#$%^&*()-_=+[]\x7b\x7d|;:,.<>?/".data

/-- `all_chars = uppercase + lowercase + digits + special`. -/
def all_chars : List Char := uppercase ++ lowercase ++ digits ++ special

/-- Shape of every candidate assembled by `generate_secure_token` before its
checks run: one character from each of the four classes plus `length - 4`
draws from `all_chars`, shuffled; so the candidate has `4 + (length - 4)`
characters, all from `all_chars`. -/
def is_candidate (len : Nat) (t : List Char) : Prop :=
  t.length = 4 + (len - 4) ∧ ∀ c ∈ t, c ∈ all_chars

end GenTok

namespace VerifyTok

/-- `check_token_length` from `verify_token_security.py`. -/
def check_token_length (token : List Char) (min_length : Nat) : Bool × String :=
  if token.length < min_length then
    (false, "Token length " ++ toString token.length ++
      " is less than minimum required " ++ toString min_length)
  else
    (true, "Token length " ++ toString token.length ++ " is sufficient")

/-- `check_character_diversity` from `verify_token_security.py`: same class
count as the generator copy, plus a diagnostic message. -/
def check_character_diversity (token : List Char) : Bool × String :=
  let has_uppercase := token.any fun c => 'A' ≤ c && c ≤ 'Z'
  let has_lowercase := token.any fun c => 'a' ≤ c && c ≤ 'z'
  let has_digits := token.any fun c => '0' ≤ c && c ≤ '9'
  let has_special := token.any fun c =>
    !(('A' ≤ c && c ≤ 'Z') || ('a' ≤ c && c ≤ 'z') || ('0' ≤ c && c ≤ '9'))
  let char_types := [has_uppercase, has_lowercase, has_digits, has_special].countP id
  if char_types < 3 then
    (false, "Token uses only " ++ toString char_types ++ " character types")
  else
    (true, "Token uses " ++ toString char_types ++ " character types")

/-- The repeating-pattern loop of `check_common_patterns` in
`verify_token_security.py` (textually the same loop as the generator copy). -/
def rep_find (token : List Char) : Option (List Char) :=
  (List.range' 1 (min 8 (token.length / 2) - 1)).findSome? fun L =>
    (List.range (token.length - 2 * L + 1)).findSome? fun i =>
      if pySlice token i L = pySlice token (i + L) L then some (pySlice token i L)
      else none

/-- The three ordered alphabets scanned by the sequential-pattern loop. -/
def sequences : List (List Char) :=
  ["abcdefghijklmnopqrstuvwxyz".data, "ABCDEFGHIJKLMNOPQRSTUVWXYZ".data,
    "0123456789".data]

/-- The sequential-pattern loop of `check_common_patterns` in
`verify_token_security.py`. -/
def seq_find (token : List Char) : Option (List Char) :=
  sequences.findSome? fun seq =>
    (List.range (seq.length - 3)).findSome? fun i =>
      if pySlice seq i 4 <:+: token then some (pySlice seq i 4)
      else none

/-- `check_common_patterns` from `verify_token_security.py`: the repetition
scan runs first and its first hit is reported; only if it finds nothing does
the sequential scan run. -/
def check_common_patterns (token : List Char) : Bool × String :=
  match rep_find token with
  | some pattern => (false, "Token contains repeating pattern: " ++ pattern.asString)
  | none =>
    match seq_find token with
    | some pattern => (false, "Token contains sequential pattern: " ++ pattern.asString)
    | none => (true, "No common patterns detected in token")

/-- One evaluation report of `main` in `verify_token_security.py`: the four
named check results in order, plus the aggregate flag. -/
structure Report where
  checks : List (String × Bool × String)
  all_passed : Bool

end VerifyTok

open scoped Classical

namespace GenTok

/-- `calculate_entropy` from `generate_secure_token.py`: Shannon entropy of
the character distribution, with the explicit guard `if not token: return 0`.
Iteration over the frequency dictionary becomes a sum over `token.dedup`
(the distinct characters); `math.log2` becomes `Real.logb 2`. -/
noncomputable def calculate_entropy (token : List Char) : ℝ :=
  if token = [] then 0
  else
    (token.dedup.map fun c =>
      -((token.count c : ℝ) / (token.length : ℝ) *
        Real.logb 2 ((token.count c : ℝ) / (token.length : ℝ)))).sum

/-- `generate_secure_token` from `generate_secure_token.py`. The successive
secure-random candidates are supplied as an explicit list; the function
returns the first candidate accepted by the entropy, diversity and pattern
checks. `none` means every supplied candidate was rejected and the source
code is still retrying: the source recursion has no retry bound, no error
value and no other exit. -/
noncomputable def generate_secure_token (len : Nat) (min_entropy : ℝ) :
    List (List Char) → Option (List Char)
  | [] => none
  | token :: rest =>
    if calculate_entropy token < min_entropy ∨ check_character_diversity token = false
        ∨ check_common_patterns token = false then
      generate_secure_token len min_entropy rest
    else
      some token

end GenTok

namespace VerifyTok

/-- `calculate_entropy` from `verify_token_security.py`: same computation as
the generator copy but with no explicit empty-string guard (the loop over the
empty frequency dictionary leaves `entropy = 0`). -/
noncomputable def calculate_entropy (token : List Char) : ℝ :=
  (token.dedup.map fun c =>
    -((token.count c : ℝ) / (token.length : ℝ) *
      Real.logb 2 ((token.count c : ℝ) / (token.length : ℝ)))).sum

/-- `check_token_entropy` from `verify_token_security.py`. -/
noncomputable def check_token_entropy (token : List Char) (min_entropy : ℝ) :
    Bool × String :=
  if calculate_entropy token < min_entropy then
    (false, "Token entropy is below minimum threshold")
  else
    (true, "Token entropy is sufficient")

/-- The check run of `main` in `verify_token_security.py`: the four checks in
their fixed order, and `all_passed` computed by the result loop
(`all_passed = True; ... if not passed: all_passed = False`). -/
noncomputable def validate_token (token : List Char) (min_length : Nat)
    (min_entropy : ℝ) : Report :=
  let checks : List (String × Bool × String) :=
    [("Token Length", check_token_length token min_length),
      ("Token Entropy", check_token_entropy token min_entropy),
      ("Character Diversity", check_character_diversity token),
      ("Common Patterns", check_common_patterns token)]
  ⟨checks, checks.foldl (fun acc c => if c.2.1 then acc else false) true⟩

end VerifyTok

/-! ### Helper lemmas shared by the claim theorems -/

/-- The result loop of `main` computes exactly the conjunction of the `passed`
flags: folding `if passed then acc else false` over a list starting from `b`
yields `b && l.all p`. -/
theorem foldl_passed_eq_all {α : Type} (p : α → Bool) :
    ∀ (l : List α) (b : Bool),
      l.foldl (fun acc c => if p c then acc else false) b = (b && l.all p)
  | [], b => by simp
  | a :: l, b => by
    simp only [List.foldl_cons, List.all_cons]
    by_cases h : p a = true
    · rw [if_pos h, foldl_passed_eq_all p l b, h]; simp
    · rw [Bool.not_eq_true] at h
      rw [if_neg (by simp [h]), foldl_passed_eq_all p l false, h]
      simp

/-- A candidate list on which `generate_secure_token` returns a token: the
token is one of the candidates and passed all three checks. -/
theorem generate_some_inv {len : Nat} {me : ℝ} :
    ∀ {stream : List (List Char)} {T : List Char},
      GenTok.generate_secure_token len me stream = some T →
        T ∈ stream ∧ ¬GenTok.calculate_entropy T < me ∧
          GenTok.check_character_diversity T = true ∧
          GenTok.check_common_patterns T = true := by
  intro stream
  induction stream with
  | nil => intro T h; simp [GenTok.generate_secure_token] at h
  | cons t rest ih =>
    intro T h
    rw [GenTok.generate_secure_token] at h
    by_cases hc : GenTok.calculate_entropy t < me ∨
        GenTok.check_character_diversity t = false ∨
        GenTok.check_common_patterns t = false
    · rw [if_pos hc] at h
      obtain ⟨hm, hrest⟩ := ih h
      exact ⟨List.mem_cons_of_mem _ hm, hrest⟩
    · rw [if_neg hc] at h
      obtain rfl : t = T := by simpa using h
      simp only [not_or, Bool.not_eq_false] at hc
      exact ⟨List.mem_cons_self _ _, hc⟩

/-- If every supplied candidate fails the diversity check, the generator
rejects the whole list and is still retrying (no error, no token). -/
theorem generate_none_of_diversity_false (len : Nat) (me : ℝ) :
    ∀ (stream : List (List Char)),
      (∀ t ∈ stream, GenTok.check_character_diversity t = false) →
        GenTok.generate_secure_token len me stream = none
  | [], _ => rfl
  | t :: rest, h => by
    rw [GenTok.generate_secure_token,
      if_pos (Or.inr (Or.inl (h t (List.mem_cons_self _ _)))),
      generate_none_of_diversity_false len me rest
        (fun t ht => h t (List.mem_cons_of_mem _ ht))]

/-- The two copies of `calculate_entropy` agree: the generator guard
`if not token: return 0` is redundant because the sum over an empty
frequency dictionary is already `0`. -/
theorem calculate_entropy_eq (t : List Char) :
    GenTok.calculate_entropy t = VerifyTok.calculate_entropy t := by
  unfold GenTok.calculate_entropy VerifyTok.calculate_entropy
  by_cases ht : t = []
  · subst ht; simp
  · rw [if_neg ht]

/-- The two copies of the repetition scan are the same function. -/
theorem rep_find_eq (t : List Char) : GenTok.rep_find t = VerifyTok.rep_find t := rfl

/-- The two copies of the sequential scan are the same function. -/
theorem seq_find_eq (t : List Char) : GenTok.seq_find t = VerifyTok.seq_find t := rfl

/-- The generator copy of the diversity check is the boolean component of the
validator copy. -/
theorem check_character_diversity_eq (t : List Char) :
    GenTok.check_character_diversity t = (VerifyTok.check_character_diversity t).1 := by
  unfold GenTok.check_character_diversity VerifyTok.check_character_diversity
  simp only [apply_ite Prod.fst]
  split
  case isTrue h => exact decide_eq_false (by omega)
  case isFalse h => exact decide_eq_true (by omega)

/-- The generator copy of the pattern check is the boolean component of the
validator copy. -/
theorem check_common_patterns_eq (t : List Char) :
    GenTok.check_common_patterns t = (VerifyTok.check_common_patterns t).1 := by
  unfold GenTok.check_common_patterns VerifyTok.check_common_patterns
  rw [rep_find_eq t, seq_find_eq t]
  cases VerifyTok.rep_find t with
  | some p => rfl
  | none => cases VerifyTok.seq_find t with
    | some p => rfl
    | none => rfl

/-- What the repetition scan of the source finds: some window is reported
exactly when a window length `L` with `1 ≤ L < min 8 (len/2)` (the Python
`range(1, min(8, len(token) // 2))`) admits an offset `i` whose length-`L`
slice equals the immediately following slice. -/
theorem rep_find_isSome_iff (s : List Char) :
    (VerifyTok.rep_find s).isSome = true ↔
      ∃ L, 1 ≤ L ∧ L < min 8 (s.length / 2) ∧
        ∃ i, i + 2 * L ≤ s.length ∧ pySlice s i L = pySlice s (i + L) L := by
  unfold VerifyTok.rep_find
  rw [List.findSome?_isSome_iff]
  constructor
  · rintro ⟨L, hL, hsome⟩
    rw [List.mem_range'_1] at hL
    rw [List.findSome?_isSome_iff] at hsome
    obtain ⟨i, hi, hif⟩ := hsome
    rw [List.mem_range] at hi
    refine ⟨L, by omega, by omega, i, ?_, ?_⟩
    · omega
    · by_contra hne
      rw [if_neg hne] at hif
      simp at hif
  · rintro ⟨L, hL1, hL2, i, hi, heq⟩
    refine ⟨L, ?_, ?_⟩
    · rw [List.mem_range'_1]; omega
    · rw [List.findSome?_isSome_iff]
      refine ⟨i, ?_, ?_⟩
      · rw [List.mem_range]; omega
      · rw [if_pos heq]; simp

/-- What the sequential scan of the source finds: some 4-character run is
reported exactly when a length-4 slice of one of the three fixed alphabets
occurs as a contiguous substring of the token. -/
theorem seq_find_isSome_iff (s : List Char) :
    (VerifyTok.seq_find s).isSome = true ↔
      ∃ seq ∈ VerifyTok.sequences, ∃ i, i + 4 ≤ seq.length ∧ pySlice seq i 4 <:+: s := by
  unfold VerifyTok.seq_find
  rw [List.findSome?_isSome_iff]
  constructor
  · rintro ⟨seq, hseq, hsome⟩
    rw [List.findSome?_isSome_iff] at hsome
    obtain ⟨i, hi, hif⟩ := hsome
    rw [List.mem_range] at hi
    refine ⟨seq, hseq, i, by omega, ?_⟩
    by_contra hne
    rw [if_neg hne] at hif
    simp at hif
  · rintro ⟨seq, hseq, i, hi, hinf⟩
    refine ⟨seq, hseq, ?_⟩
    rw [List.findSome?_isSome_iff]
    refine ⟨i, ?_, ?_⟩
    · rw [List.mem_range]
      have : 4 ≤ seq.length := by omega
      omega
    · rw [if_pos hinf]; simp

/-- Sum of pointwise negations of a list of reals. -/
theorem list_sum_neg : ∀ (l : List ℝ), (l.map Neg.neg).sum = -l.sum
  | [] => by simp
  | a :: l => by simp [list_sum_neg l]; ring

/-- The textbook Shannon-entropy formula the specification states: minus the
sum, over the distinct characters, of `p * log2 p` with
`p = frequency / length`. -/
noncomputable def shannon_entropy (s : List Char) : ℝ :=
  -(∑ c ∈ s.toFinset, (s.count c : ℝ) / (s.length : ℝ) *
      Real.logb 2 ((s.count c : ℝ) / (s.length : ℝ)))

/-- The dictionary-iteration sum of the source equals the textbook formula. -/
theorem calculate_entropy_eq_shannon (t : List Char) :
    VerifyTok.calculate_entropy t = shannon_entropy t := by
  unfold VerifyTok.calculate_entropy shannon_entropy
  have hfin : t.dedup.toFinset = t.toFinset :=
    List.toFinset.ext_iff.mpr fun x => List.mem_dedup
  rw [← hfin, List.sum_toFinset _ (List.nodup_dedup t)]
  rw [show (List.map (fun c => -((t.count c : ℝ) / (t.length : ℝ) *
      Real.logb 2 ((t.count c : ℝ) / (t.length : ℝ)))) t.dedup) =
    (List.map ((fun c => (t.count c : ℝ) / (t.length : ℝ) *
      Real.logb 2 ((t.count c : ℝ) / (t.length : ℝ)))) t.dedup).map Neg.neg by
    rw [List.map_map]; rfl]
  rw [list_sum_neg]

/-- On a duplicate-free token of length `n`, every character has frequency 1
and the source entropy is exactly `log2 n`. -/
theorem calculate_entropy_nodup {t : List Char} (hn : t.Nodup) (hne : t ≠ []) :
    VerifyTok.calculate_entropy t = Real.logb 2 (t.length : ℝ) := by
  unfold VerifyTok.calculate_entropy
  have hlen : 0 < t.length := List.length_pos.mpr hne
  have hlenR : (0 : ℝ) < (t.length : ℝ) := by exact_mod_cast hlen
  have hterm : ∀ c ∈ t.dedup,
      (fun c => -((t.count c : ℝ) / (t.length : ℝ) *
        Real.logb 2 ((t.count c : ℝ) / (t.length : ℝ)))) c =
      Real.logb 2 (t.length : ℝ) / (t.length : ℝ) := by
    intro c hc
    dsimp only
    rw [List.count_eq_one_of_mem hn (List.mem_dedup.mp hc)]
    push_cast
    rw [one_div, Real.logb_inv]
    field_simp
  rw [List.map_congr_left hterm, List.map_const', List.sum_replicate, hn.dedup,
    nsmul_eq_mul]
  field_simp

/-- The validator entropy of the empty string is `0` even without the
generator's explicit guard: the frequency dictionary is empty. -/
theorem calculate_entropy_nil : VerifyTok.calculate_entropy [] = 0 := by
  simp [VerifyTok.calculate_entropy]

/-- The validator entropy of any one-character string is `0`. -/
theorem calculate_entropy_single (c : Char) : VerifyTok.calculate_entropy [c] = 0 := by
  unfold VerifyTok.calculate_entropy
  rw [List.Nodup.dedup (by simp)]
  simp [Real.logb_one]

/-- Entropy of `"aaaa"` is `0`: a single symbol with probability 1. -/
theorem calculate_entropy_aaaa : VerifyTok.calculate_entropy "aaaa".data = 0 := by
  unfold VerifyTok.calculate_entropy
  rw [show ("aaaa".data).dedup = ['a'] by decide]
  simp only [List.map_cons, List.map_nil, List.sum_cons, List.sum_nil]
  rw [show ("aaaa".data).count 'a' = 4 by decide, show ("aaaa".data).length = 4 by decide]
  norm_num [Real.logb_one]

/-- Entropy of `"ab"` is `1`: two equiprobable symbols. -/
theorem calculate_entropy_ab : VerifyTok.calculate_entropy "ab".data = 1 := by
  unfold VerifyTok.calculate_entropy
  rw [show ("ab".data).dedup = ['a', 'b'] by decide]
  simp only [List.map_cons, List.map_nil, List.sum_cons, List.sum_nil]
  rw [show ("ab".data).count 'a' = 1 by decide, show ("ab".data).count 'b' = 1 by decide,
    show ("ab".data).length = 2 by decide]
  have h : Real.logb 2 ((1 : ℝ) / 2) = -1 := by
    rw [one_div, Real.logb_inv, Real.logb_self_eq_one (by norm_num)]
  push_cast
  rw [h]
  norm_num

/-- The four character classes of the specification. -/
inductive CharKind
  | upper
  | lower
  | digit
  | symbol
deriving DecidableEq

/-- Class of one character, following the regex classes `[A-Z]`, `[a-z]`,
`[0-9]`, `[^A-Za-z0-9]` of the source. -/
def classifyChar (c : Char) : CharKind :=
  if 'A' ≤ c ∧ c ≤ 'Z' then .upper
  else if 'a' ≤ c ∧ c ≤ 'z' then .lower
  else if '0' ≤ c ∧ c ≤ '9' then .digit
  else .symbol

/-- Specification-side class count: the number of distinct character classes
among upper, lower, digit, symbol that occur in `s`. -/
def class_count (s : List Char) : Nat :=
  ([CharKind.upper, CharKind.lower, CharKind.digit, CharKind.symbol].filter
    fun k => s.any fun c => classifyChar c == k).length

/-- A character cannot lie in two of the three letter/digit ranges at once. -/
theorem range_disjoint (c : Char) :
    ¬('a' ≤ c ∧ c ≤ 'Z') ∧ ¬('A' ≤ c ∧ c ≤ '9') ∧ ¬('a' ≤ c ∧ c ≤ '9') := by
  refine ⟨fun ⟨h1, h2⟩ => ?_, fun ⟨h1, h2⟩ => ?_, fun ⟨h1, h2⟩ => ?_⟩
  · exact absurd (le_trans h1 h2) (by decide)
  · exact absurd (le_trans h1 h2) (by decide)
  · exact absurd (le_trans h1 h2) (by decide)

theorem classify_upper (c : Char) :
    (classifyChar c == CharKind.upper) = ('A' ≤ c && c ≤ 'Z') := by
  rw [Bool.eq_iff_iff]
  simp only [beq_iff_eq, Bool.and_eq_true, decide_eq_true_eq]
  unfold classifyChar
  split_ifs with h1 h2 h3 <;> simp [h1]

theorem classify_lower (c : Char) :
    (classifyChar c == CharKind.lower) = ('a' ≤ c && c ≤ 'z') := by
  rw [Bool.eq_iff_iff]
  simp only [beq_iff_eq, Bool.and_eq_true, decide_eq_true_eq]
  unfold classifyChar
  split_ifs with h1 h2 h3
  · have hne : CharKind.upper ≠ CharKind.lower := by decide
    simp only [hne, false_iff]
    exact fun h => (range_disjoint c).1 ⟨h.1, h1.2⟩
  · simp [h2]
  · simp [h2]
  · simp [h2]

theorem classify_digit (c : Char) :
    (classifyChar c == CharKind.digit) = ('0' ≤ c && c ≤ '9') := by
  rw [Bool.eq_iff_iff]
  simp only [beq_iff_eq, Bool.and_eq_true, decide_eq_true_eq]
  unfold classifyChar
  split_ifs with h1 h2 h3
  · have hne : CharKind.upper ≠ CharKind.digit := by decide
    simp only [hne, false_iff]
    exact fun h => (range_disjoint c).2.1 ⟨h1.1, h.2⟩
  · have hne : CharKind.lower ≠ CharKind.digit := by decide
    simp only [hne, false_iff]
    exact fun h => (range_disjoint c).2.2 ⟨h2.1, h.2⟩
  · simp [h3]
  · simp [h3]

theorem classify_symbol (c : Char) :
    (classifyChar c == CharKind.symbol) =
      !(('A' ≤ c && c ≤ 'Z') || ('a' ≤ c && c ≤ 'z') || ('0' ≤ c && c ≤ '9')) := by
  rw [← classify_upper, ← classify_lower, ← classify_digit]
  rcases h : classifyChar c <;> rfl

/-- The specification class count is the `char_types` sum the source
computes. -/
theorem class_count_eq (s : List Char) :
    class_count s =
      [s.any fun c => 'A' ≤ c && c ≤ 'Z', s.any fun c => 'a' ≤ c && c ≤ 'z',
        s.any fun c => '0' ≤ c && c ≤ '9',
        s.any fun c =>
          !(('A' ≤ c && c ≤ 'Z') || ('a' ≤ c && c ≤ 'z') || ('0' ≤ c && c ≤ '9'))].countP
        id := by
  unfold class_count
  simp only [List.filter_cons, List.filter_nil, List.countP_cons, List.countP_nil,
    classify_upper, classify_lower, classify_digit, classify_symbol, id_eq]
  cases hu : s.any fun c => 'A' ≤ c && c ≤ 'Z' <;>
    cases hl : s.any fun c => 'a' ≤ c && c ≤ 'z' <;>
      cases hd : s.any fun c => '0' ≤ c && c ≤ '9' <;>
        cases hs : s.any fun c =>
            !(('A' ≤ c && c ≤ 'Z') || ('a' ≤ c && c ≤ 'z') || ('0' ≤ c && c ≤ '9')) <;>
          simp [hu, hl, hd, hs]

/-- The validator diversity flag is exactly `3 ≤ class_count`. -/
theorem check_character_diversity_spec (s : List Char) :
    (VerifyTok.check_character_diversity s).1 = decide (3 ≤ class_count s) := by
  rw [class_count_eq]
  unfold VerifyTok.check_character_diversity
  simp only [apply_ite Prod.fst]
  split
  case isTrue h => exact (decide_eq_false (by omega)).symm
  case isFalse h => exact (decide_eq_true (by omega)).symm

theorem check_token_length_fst {T : List Char} {minL : Nat}
    (h : ¬T.length < minL) : (VerifyTok.check_token_length T minL).1 = true := by
  unfold VerifyTok.check_token_length
  rw [if_neg h]

theorem check_token_entropy_fst {T : List Char} {minE : ℝ}
    (h : ¬VerifyTok.calculate_entropy T < minE) :
    (VerifyTok.check_token_entropy T minE).1 = true := by
  unfold VerifyTok.check_token_entropy
  rw [if_neg h]

/-- A token passing the four individual checks yields an `all_passed` report. -/
theorem validate_all_passed {T : List Char} {minL : Nat} {minE : ℝ}
    (hlen : ¬T.length < minL) (hent : ¬VerifyTok.calculate_entropy T < minE)
    (hdiv : (VerifyTok.check_character_diversity T).1 = true)
    (hpat : (VerifyTok.check_common_patterns T).1 = true) :
    (VerifyTok.validate_token T minL minE).all_passed = true := by
  unfold VerifyTok.validate_token
  dsimp only
  rw [foldl_passed_eq_all]
  simp [check_token_length_fst hlen, check_token_entropy_fst hent, hdiv, hpat]

/-- Any token returned by the generator passes the validator run under the
policy it was generated with (`min_length := len`). -/
theorem generate_implies_validate {len : Nat} {me : ℝ} {stream : List (List Char)}
    {T : List Char} (hcand : ∀ t ∈ stream, GenTok.is_candidate len t)
    (hgen : GenTok.generate_secure_token len me stream = some T) :
    (VerifyTok.validate_token T len me).all_passed = true := by
  obtain ⟨hmem, hent, hdiv, hpat⟩ := generate_some_inv hgen
  obtain ⟨hlen, -⟩ := hcand T hmem
  refine validate_all_passed ?_ ?_ ?_ ?_
  · omega
  · rw [← calculate_entropy_eq]; exact hent
  · rw [← check_character_diversity_eq]; exact hdiv
  · rw [← check_common_patterns_eq]; exact hpat

/-- A concrete 48-character candidate: 16 uppercase, 16 lowercase, 9 digits
and 7 punctuation characters, all distinct, interleaved so that no alphabet
run of length 4 occurs. -/
def W48 : List Char := "A1aB2bC3cD4dE5eF6fG7gH8hI9iJ!jK@kL#lM$mN%nO^oP&p".data

/-- A concrete 5-character candidate, all characters distinct. -/
def W5 : List Char := "Ab1!c".data

theorem logb_two_48_ge_four : (4 : ℝ) ≤ Real.logb 2 48 := by
  rw [Real.le_logb_iff_rpow_le (by norm_num) (by norm_num)]
  rw [show (4 : ℝ) = ((4 : ℕ) : ℝ) by norm_num, Real.rpow_natCast]
  norm_num

theorem W48_entropy : VerifyTok.calculate_entropy W48 = Real.logb 2 48 := by
  rw [calculate_entropy_nodup (by decide) (by decide), show W48.length = 48 by decide]
  norm_num

theorem W48_entropy_ge : ¬GenTok.calculate_entropy W48 < 4 := by
  rw [calculate_entropy_eq, W48_entropy, not_lt]
  exact logb_two_48_ge_four

theorem generate_48_W48 : GenTok.generate_secure_token 48 4 [W48] = some W48 := by
  rw [GenTok.generate_secure_token,
    if_neg (by
      simp only [not_or, Bool.not_eq_false]
      exact ⟨W48_entropy_ge, by decide, by decide⟩)]

theorem W48_is_candidate : ∀ t ∈ [W48], GenTok.is_candidate 48 t := by
  intro t ht
  rw [List.mem_singleton] at ht
  subst ht
  exact ⟨by decide, by decide⟩

theorem W5_entropy_nonneg : ¬GenTok.calculate_entropy W5 < 0 := by
  rw [calculate_entropy_eq, calculate_entropy_nodup (by decide) (by decide), not_lt,
    show W5.length = 5 by decide]
  exact Real.logb_nonneg (by norm_num) (by norm_num)

theorem generate_5_W5 : GenTok.generate_secure_token 5 0 [W5] = some W5 := by
  rw [GenTok.generate_secure_token,
    if_neg (by
      simp only [not_or, Bool.not_eq_false]
      exact ⟨W5_entropy_nonneg, by decide, by decide⟩)]

theorem W5_is_candidate : ∀ t ∈ [W5], GenTok.is_candidate 5 t := by
  intro t ht
  rw [List.mem_singleton] at ht
  subst ht
  exact ⟨by decide, by decide⟩

/-! ### Claim theorems -/

/-- C1, counterexample: the claim says every doubled block is flagged, e.g.
`"abab"`; but in `"abab"` the length-2 window at offset 0 equals the window at
offset 2 with `L = 2 = floor(len/2)`, yet the source repetition scan
(`range(1, min(8, len // 2))`, an exclusive upper bound) never tries `L = 2`
and finds nothing, and the whole pattern check accepts the string. -/
theorem C1_counterexample :
    pySlice "abab".data 0 2 = pySlice "abab".data 2 2 ∧
    2 ≤ "abab".data.length / 2 ∧
    VerifyTok.rep_find "abab".data = none ∧
    GenTok.check_common_patterns "abab".data = true ∧
    (VerifyTok.check_common_patterns "abab".data).1 = true := by decide

/-- C1 (amended): the repetition scan considers every window length `L` with
`1 ≤ L < min 8 (len/2)` (so at most `7`, and strictly below `floor(len/2)`,
never equal to it) and every starting offset, and flags `s` exactly when the
length-`L` substring at some offset `i` equals the length-`L` substring
immediately following it; doubled blocks are flagged only when such an `L`
is in that range — `"abab"`, `"aa"`, `"xyzxyz"` are not flagged — and
`has_forbidden_pattern("xy12xy12AB")` does report the repeated pattern
`"xy12"`. -/
theorem C1_repetition_scan_amended :
    (∀ s : List Char,
      (VerifyTok.rep_find s).isSome = true ↔
        ∃ L, 1 ≤ L ∧ L < min 8 (s.length / 2) ∧
          ∃ i, i + 2 * L ≤ s.length ∧ pySlice s i L = pySlice s (i + L) L) ∧
    VerifyTok.rep_find "xy12xy12AB".data = some "xy12".data ∧
    VerifyTok.rep_find "aa".data = none ∧
    VerifyTok.rep_find "xyzxyz".data = none :=
  ⟨rep_find_isSome_iff, by decide, by decide, by decide⟩

/-- C2: for every policy (length, minimum entropy) under which the generator
succeeds (modelled over any candidate stream of the shape the source
constructs), re-evaluating the returned token under the same policy yields a
report with `all_passed = true`. -/
theorem C2_generator_self_consistency :
    ∀ (len : Nat) (me : ℝ) (stream : List (List Char)),
      (∀ t ∈ stream, GenTok.is_candidate len t) →
      ∀ T, GenTok.generate_secure_token len me stream = some T →
        (VerifyTok.validate_token T len me).all_passed = true :=
  fun _ _ _ hc _ hg => generate_implies_validate hc hg

/-- C2, witness: a concrete policy (length 5, minimum entropy 0) and candidate
stream on which generation succeeds and the re-evaluation passes. -/
theorem C2_generator_self_consistency_witness :
    (∀ t ∈ [W5], GenTok.is_candidate 5 t) ∧
    GenTok.generate_secure_token 5 0 [W5] = some W5 ∧
    (VerifyTok.validate_token W5 5 0).all_passed = true :=
  ⟨W5_is_candidate, generate_5_W5,
    C2_generator_self_consistency 5 0 [W5] W5_is_candidate W5 generate_5_W5⟩

/-- C3, counterexample: the claim says the diversity check passes iff the
class count reaches a configurable `min_character_classes` between 1 and 4;
but `"abcd"` has class count `1 ≥ 1` and the source check still fails it —
the threshold is hard-coded to 3, not configurable. -/
theorem C3_counterexample :
    class_count "abcd".data = 1 ∧ (1 : Nat) ≤ 1 ∧
    (VerifyTok.check_character_diversity "abcd".data).1 = false := by decide

/-- C3 (amended): the diversity check passes iff the number of distinct
character classes among upper, lower, digit, symbol present in the string is
at least the fixed threshold 3 (there is no configurable
`min_character_classes` in the source); the class count itself matches the
specification examples: `classes("Ab3!").count = 4`,
`classes("abcd").count = 1`. -/
theorem C3_diversity_amended :
    (∀ s : List Char,
      (VerifyTok.check_character_diversity s).1 = decide (3 ≤ class_count s)) ∧
    class_count "Ab3!".data = 4 ∧ class_count "abcd".data = 1 :=
  ⟨check_character_diversity_spec, by decide, by decide⟩

/-- C4, counterexample: the claim says `has_forbidden_pattern("zzzabcdzzz")`
reports `"abcd"` and `has_forbidden_pattern("zzzabcezzz")` reports none; in
the source the repetition scan runs first and hits the doubled `"z"` at
offset 0, so both strings report the repeating pattern `"z"` — neither
reports `"abcd"`, and the second one does not report none. -/
theorem C4_counterexample :
    VerifyTok.check_common_patterns "zzzabcezzz".data =
      (false, "Token contains repeating pattern: z") ∧
    VerifyTok.check_common_patterns "zzzabcdzzz".data =
      (false, "Token contains repeating pattern: z") := by decide

/-- C4 (amended): the sequence scan (reached only when the repetition scan
finds nothing) flags exactly when 4 consecutive characters of one of the
three fixed ordered alphabets, without wrap-around, occur as a contiguous
substring; on repetition-free carriers the claimed examples hold:
`has_forbidden_pattern("xqwabcdxqw")` reports the sequential pattern
`"abcd"` and `has_forbidden_pattern("xqwabcexqw")` reports none, while on
`"zzzabcdzzz"`/`"zzzabcezzz"` the repetition scan fires first. -/
theorem C4_sequence_scan_amended :
    (∀ s : List Char,
      (VerifyTok.seq_find s).isSome = true ↔
        ∃ seq ∈ VerifyTok.sequences, ∃ i, i + 4 ≤ seq.length ∧ pySlice seq i 4 <:+: s) ∧
    VerifyTok.check_common_patterns "xqwabcdxqw".data =
      (false, "Token contains sequential pattern: abcd") ∧
    (VerifyTok.check_common_patterns "xqwabcexqw".data).1 = true :=
  ⟨seq_find_isSome_iff, by decide, by decide⟩

/-- C5, counterexample: the claim says generation fails with a
`GenerationExhausted` error once a bounded retry count (e.g. 100) is
exhausted; in the source there is no bound and no error value — after 100
straight rejections (here: all-`'a'` candidates, which fail the diversity
check) the call is still retrying and has produced neither a token nor an
error. -/
theorem C5_counterexample :
    GenTok.generate_secure_token 48 4
      (List.replicate 100 (List.replicate 48 'a')) = none :=
  generate_none_of_diversity_false 48 4 _ fun t ht => by
    rw [List.eq_of_mem_replicate ht]; decide

/-- C5 (amended): generation retries via unbounded self-recursion: for any
number of rejected candidates it is still retrying and never surfaces a
`GenerationExhausted` error (the source has no error path); what does hold is
that no policy-violating token is ever returned — any returned token passed
the entropy, diversity and pattern checks. -/
theorem C5_generation_amended :
    (∀ (len : Nat) (me : ℝ) (stream : List (List Char)) (T : List Char),
      GenTok.generate_secure_token len me stream = some T →
        ¬GenTok.calculate_entropy T < me ∧
        GenTok.check_character_diversity T = true ∧
        GenTok.check_common_patterns T = true) ∧
    (∀ (len : Nat) (me : ℝ) (stream : List (List Char)),
      (∀ t ∈ stream, GenTok.check_character_diversity t = false) →
        GenTok.generate_secure_token len me stream = none) :=
  ⟨fun _ _ _ _ hg => (generate_some_inv hg).2,
    fun len me stream h => generate_none_of_diversity_false len me stream h⟩

/-- C5, witness: both parts of the amended claim at concrete inputs — the
token `W5` returned by a successful generation passed all three checks, and a
stream of three all-`'a'` candidates is entirely rejected. -/
theorem C5_generation_amended_witness :
    (¬GenTok.calculate_entropy W5 < 0 ∧ GenTok.check_character_diversity W5 = true ∧
      GenTok.check_common_patterns W5 = true) ∧
    GenTok.generate_secure_token 3 0 [List.replicate 3 'a'] = none :=
  ⟨C5_generation_amended.1 5 0 [W5] W5 generate_5_W5,
    C5_generation_amended.2 3 0 [List.replicate 3 'a'] fun t ht => by
      rw [List.mem_singleton] at ht; subst ht; decide⟩

/-- C6: validation is total — every input yields a full four-entry report,
the repetition scan of any string shorter than 2 characters trivially finds
nothing (its loop range is empty), and the entropy computation returns `0`
on empty and one-character inputs instead of erroring. -/
theorem C6_validation_total :
    (∀ (s : List Char) (minL : Nat) (minE : ℝ),
      (VerifyTok.validate_token s minL minE).checks.length = 4) ∧
    (∀ s : List Char, s.length < 2 → VerifyTok.rep_find s = none) ∧
    VerifyTok.calculate_entropy [] = 0 ∧
    (∀ c : Char, VerifyTok.calculate_entropy [c] = 0) := by
  refine ⟨?_, ?_, calculate_entropy_nil, calculate_entropy_single⟩
  · intro s minL minE
    rfl
  · intro s h
    unfold VerifyTok.rep_find
    rw [show min 8 (s.length / 2) - 1 = 0 by omega]
    rfl

/-- C6, witness: the short-input conjunct instantiated at the one-character
string `"a"`. -/
theorem C6_validation_total_witness :
    (['a'] : List Char).length < 2 ∧ VerifyTok.rep_find ['a'] = none :=
  ⟨by decide, C6_validation_total.2.1 ['a'] (by decide)⟩

/-- C7: a successful `generate_token(min_length=48, min_entropy=4.0)` run
(modelled over any candidate stream of the shape the source constructs)
returns a 48-character token that passes validation under the looser default
policy `min_length=32, min_entropy=3.5`. -/
theorem C7_end_to_end :
    ∀ stream : List (List Char), (∀ t ∈ stream, GenTok.is_candidate 48 t) →
      ∀ T, GenTok.generate_secure_token 48 4 stream = some T →
        T.length = 48 ∧ (VerifyTok.validate_token T 32 (3.5 : ℝ)).all_passed = true := by
  intro stream hcand T hgen
  obtain ⟨hmem, hent, hdiv, hpat⟩ := generate_some_inv hgen
  obtain ⟨hlen, -⟩ := hcand T hmem
  refine ⟨by omega, validate_all_passed ?_ ?_ ?_ ?_⟩
  · omega
  · rw [calculate_entropy_eq] at hent
    rw [not_lt] at hent ⊢
    linarith
  · rw [← check_character_diversity_eq]; exact hdiv
  · rw [← check_common_patterns_eq]; exact hpat

/-- C7, witness: a concrete accepted candidate stream — `generate` returns
the 48-character token `W48` and the validator passes it under the default
policy. -/
theorem C7_end_to_end_witness :
    GenTok.generate_secure_token 48 4 [W48] = some W48 ∧ W48.length = 48 ∧
    (VerifyTok.validate_token W48 32 (3.5 : ℝ)).all_passed = true :=
  ⟨generate_48_W48, (C7_end_to_end [W48] W48_is_candidate W48 generate_48_W48).1,
    (C7_end_to_end [W48] W48_is_candidate W48 generate_48_W48).2⟩

/-- C8: for every token and policy the report contains the four checks, in
the fixed order Token Length, Token Entropy, Character Diversity, Common
Patterns — none is skipped after an earlier failure — and `all_passed` equals
the conjunction of all contained `passed` flags. -/
theorem C8_report_invariant :
    ∀ (t : List Char) (minL : Nat) (minE : ℝ),
      (VerifyTok.validate_token t minL minE).all_passed =
        (VerifyTok.validate_token t minL minE).checks.all (fun c => c.2.1) ∧
      (VerifyTok.validate_token t minL minE).checks.map (fun c => c.1) =
        ["Token Length", "Token Entropy", "Character Diversity", "Common Patterns"] := by
  intro t minL minE
  constructor
  · unfold VerifyTok.validate_token
    dsimp only
    rw [foldl_passed_eq_all]
    simp
  · rfl

/-- C9: the entropy scorer computes Shannon entropy — the source sum over the
frequency dictionary equals `−Σ p·log2(p)` over the distinct characters —
and `score("") = 0`, `score("aaaa") = 0`, `score("ab") = 1`. -/
theorem C9_entropy_shannon :
    (∀ t : List Char, VerifyTok.calculate_entropy t = shannon_entropy t) ∧
    VerifyTok.calculate_entropy [] = 0 ∧
    VerifyTok.calculate_entropy "aaaa".data = 0 ∧
    VerifyTok.calculate_entropy "ab".data = 1 :=
  ⟨calculate_entropy_eq_shannon, calculate_entropy_nil, calculate_entropy_aaaa,
    calculate_entropy_ab⟩

/-- C10: the generation path and the validation path enforce identical
scoring rules: the two copies of `calculate_entropy` agree on every string
(including the empty string, where only the generator copy has an explicit
guard), and the generator's diversity and pattern checks equal the boolean
components of the validator's. -/
theorem C10_shared_rules :
    (∀ t : List Char, GenTok.calculate_entropy t = VerifyTok.calculate_entropy t) ∧
    (∀ t : List Char,
      GenTok.check_character_diversity t = (VerifyTok.check_character_diversity t).1) ∧
    (∀ t : List Char,
      GenTok.check_common_patterns t = (VerifyTok.check_common_patterns t).1) :=
  ⟨calculate_entropy_eq, check_character_diversity_eq, check_common_patterns_eq⟩
